import Mathlib

/-!
Shallow embedding of `providers/criteo.go` (a Criteo identity-provider
plugin for an OAuth reverse-proxy gateway).

Network effects are modelled by an explicit environment `Env` mapping each
outgoing HTTP request to a wire-level response, and every operation returns,
next to its result, the list of requests it handed to the HTTP layer (its
network trace).  Time is modelled as nanoseconds since the epoch (a `Nat`),
matching Go's `time.Time`/`time.Duration` arithmetic used in the source.
Cancellation contexts are modelled by a `Bool` (`true` = cancelled); a
request built with `http.NewRequestWithContext` carries `some ctx`, a
request built with plain `http.NewRequest` carries `none`.
-/

namespace Criteo

/-- Model of Go's `net/url.URL` restricted to the fields the source sets. -/
structure URL where
  scheme : String
  host : String
  path : String
  rawQuery : String
deriving DecidableEq, Repr

/-- Model of `net/http.Header` restricted to the two headers the source sets
(`Accept` and `Authorization`).  `none` means the header is absent. -/
structure Header where
  accept : Option String
  authorization : Option String
deriving DecidableEq, Repr

/-- The empty header map that `http.NewRequest` starts from. -/
def emptyHeader : Header := { accept := none, authorization := none }

/-- `getCriteoHeader` from the source: sets `Accept: application/json` and
`Authorization: Bearer <accessToken>`. -/
def getCriteoHeader (accessToken : String) : Header :=
  { accept := some "application/json",
    authorization := some ("Bearer " ++ accessToken) }

/-- Model of `sessions.SessionState` restricted to the fields the source
reads or writes.  `ExpiresOn` is `Option Nat` because the Go field is a
`*time.Time` (nil pointer = `none`). -/
structure SessionState where
  AccessToken : String
  RefreshToken : String
  Email : String
  User : String
  ExpiresOn : Option Nat
deriving DecidableEq, Repr

/-- `tokenInfo` from the source (JSON fields `mail`, `dn`). -/
structure tokenInfo where
  Email : String
  User : String
deriving DecidableEq, Repr

/-- `profileResponse` from the source (JSON fields `cn`, `dn`). -/
structure profileResponse where
  Cn : String
  Dn : String
deriving DecidableEq, Repr

/-- `groupInfo` from the source (JSON field `name`). -/
structure groupInfo where
  Name : String
deriving DecidableEq, Repr

/-- `groupsResponse` from the source. -/
structure groupsResponse where
  Groups : List groupInfo
deriving DecidableEq, Repr

/-- `criteoProfile` from the source. -/
structure criteoProfile where
  profile : profileResponse
  groups : groupsResponse
deriving DecidableEq, Repr

/-- The error taxonomy of the spec, covering every error value the embedded
code can produce:
* `missingCredential` — `errors.New("missing access token")`;
* `remoteUnavailable` — transport failure inside `requests.RequestJSON`;
* `decodeError` — malformed/mismatched JSON body;
* `cancelled` — the request's context was cancelled;
* `profileIncomplete` — `fmt.Errorf("can't find email")`;
* `groupMembershipLost email` — `fmt.Errorf("%s is no longer in the group(s)", s.Email)`. -/
inductive CriteoError where
  | missingCredential
  | remoteUnavailable
  | decodeError
  | cancelled
  | profileIncomplete
  | groupMembershipLost (email : String)
deriving DecidableEq, Repr

/-- An HTTP request as handed to the HTTP layer.  `ctx = some c` means the
request was built with `http.NewRequestWithContext` under a context whose
cancelled-flag is `c`; `ctx = none` means it was built with plain
`http.NewRequest` and carries no context. -/
structure Request where
  method : String
  url : URL
  header : Header
  ctx : Option Bool
deriving DecidableEq, Repr

/-- A wire-level response body, already parsed at the JSON level: either one
of the three shapes the source decodes into, or a malformed body. -/
inductive Wire where
  | profile (p : profileResponse)
  | groupList (g : List groupInfo)
  | token (t : tokenInfo)
  | badBody
deriving DecidableEq, Repr

/-- What the network does with a request: deliver a body or fail at the
transport level. -/
inductive WireResp where
  | body (w : Wire)
  | transportFailure
deriving DecidableEq, Repr

/-- The network environment: a response for every possible request. -/
def Env := Request → WireResp

/-- Decoder for a `profileResponse` target (the `v interface{}` argument of
`requests.RequestJSON` instantiated at `*profileResponse`). -/
def decodeProfileResponse : Wire → Except CriteoError profileResponse
  | .profile p => .ok p
  | _ => .error .decodeError

/-- Decoder for a `[]groupInfo` target. -/
def decodeGroupList : Wire → Except CriteoError (List groupInfo)
  | .groupList g => .ok g
  | _ => .error .decodeError

/-- Decoder for a `tokenInfo` target. -/
def decodeTokenInfo : Wire → Except CriteoError tokenInfo
  | .token t => .ok t
  | _ => .error .decodeError

/-- Model of the generic JSON-request collaborator `requests.RequestJSON`
plus the HTTP client underneath it: a request whose attached context is
cancelled fails with `cancelled` (the client aborts it), otherwise the
environment answers and the body is decoded into the target type. -/
def RequestJSON {α : Type} (env : Env) (req : Request)
    (dec : Wire → Except CriteoError α) : Except CriteoError α :=
  if req.ctx = some true then .error .cancelled
  else
    match env req with
    | .transportFailure => .error .remoteUnavailable
    | .body w => dec w

/-- `requestJSONWithContext` from the source: rejects a non-nil session with
an empty access token before any request is built, builds a GET request with
`http.NewRequestWithContext` (so the request carries the caller's context),
attaches the Criteo header when a session is supplied, and calls
`requests.RequestJSON`.  Returns the result together with the list of
requests handed to the HTTP layer. -/
def requestJSONWithContext {α : Type} (env : Env) (ctx : Bool)
    (s : Option SessionState) (url : URL) (dec : Wire → Except CriteoError α) :
    Except CriteoError α × List Request :=
  match s with
  | some sess =>
    if sess.AccessToken = "" then (.error .missingCredential, [])
    else
      let req : Request :=
        { method := "GET", url := url,
          header := getCriteoHeader sess.AccessToken, ctx := some ctx }
      (RequestJSON env req dec, [req])
  | none =>
    let req : Request :=
      { method := "GET", url := url, header := emptyHeader, ctx := some ctx }
    (RequestJSON env req dec, [req])

/-- `requestJSON` from the source: identical to `requestJSONWithContext`
except the request is built with plain `http.NewRequest`, so it carries no
context (`ctx := none`). -/
def requestJSON {α : Type} (env : Env) (s : Option SessionState) (url : URL)
    (dec : Wire → Except CriteoError α) :
    Except CriteoError α × List Request :=
  match s with
  | some sess =>
    if sess.AccessToken = "" then (.error .missingCredential, [])
    else
      let req : Request :=
        { method := "GET", url := url,
          header := getCriteoHeader sess.AccessToken, ctx := none }
      (RequestJSON env req dec, [req])
  | none =>
    let req : Request :=
      { method := "GET", url := url, header := emptyHeader, ctx := none }
    (RequestJSON env req dec, [req])

/-- Model of `CriteoProvider` after `Configure` has run, restricted to the
fields the embedded operations read: `ProfileURL` (introspection endpoint),
`IdentityURL` (directory base, path `/user/`), and the allow-list captured
by the `GroupValidator` closure that `Configure` installs. -/
structure CriteoProvider where
  ProfileURL : URL
  IdentityURL : URL
  groups : List String
deriving DecidableEq, Repr

/-- `GetProfile` from the source.  Go mutates the session in place; the
embedding returns the updated session.  The result triple is
(error-or-nil, session after the call, network trace). -/
def GetProfile (env : Env) (ctx : Bool) (p : CriteoProvider) (s : SessionState) :
    Option CriteoError × SessionState × List Request :=
  if s.User ≠ "" ∧ s.Email ≠ "" then (none, s, [])
  else
    match requestJSONWithContext env ctx (some s) p.ProfileURL decodeTokenInfo with
    | (.error e, reqs) => (some e, s, reqs)
    | (.ok info, reqs) =>
      let s' : SessionState := { s with Email := info.Email, User := info.User }
      if s'.Email = "" then (some .profileIncomplete, s', reqs)
      else (none, s', reqs)

/-- `getExtendedProfile` from the source: two sequential unauthenticated
round-trips against the directory, `GET IdentityURL.path ++ dn` then
`GET IdentityURL.path ++ dn ++ "/groups"`, failing fast on the first error. -/
def getExtendedProfile (env : Env) (p : CriteoProvider) (dn : String) :
    Except CriteoError criteoProfile × List Request :=
  let url1 : URL := { p.IdentityURL with path := p.IdentityURL.path ++ dn }
  match requestJSON env none url1 decodeProfileResponse with
  | (.error e, r1) => (.error e, r1)
  | (.ok prof, r1) =>
    let url2 : URL := { url1 with path := url1.path ++ "/groups" }
    match requestJSON env none url2 decodeGroupList with
    | (.error e, r2) => (.error e, r1 ++ r2)
    | (.ok gl, r2) => (.ok { profile := prof, groups := { Groups := gl } }, r1 ++ r2)

/-- `userInGroup` from the source: fetch the extended profile; on any error
log it and return `false` (fail-closed); otherwise scan the membership list
against the allow-list, returning `true` on the first exact string match. -/
def userInGroup (env : Env) (p : CriteoProvider) (groups : List String)
    (s : SessionState) : Bool × List Request :=
  match getExtendedProfile env p s.User with
  | (.error _, reqs) => (false, reqs)
  | (.ok profile, reqs) =>
    (profile.groups.Groups.any (fun ug => groups.any (fun g => ug.Name == g)), reqs)

/-- `ValidateGroup` from the source: calls the `GroupValidator` closure that
`Configure` installed, which is `fun s => p.userInGroup(groups, s)` with
`groups` the configured allow-list (the `groups` field of the model). -/
def ValidateGroup (env : Env) (p : CriteoProvider) (s : SessionState) :
    Bool × List Request :=
  userInGroup env p p.groups s

/-- Go's `time.Second` in nanoseconds. -/
def nsPerSecond : Nat := 1000000000

/-- `t.Truncate(time.Second)` on a `time.Time` that is `t` nanoseconds after
the epoch: round down to a whole second. -/
def truncateToSecond (t : Nat) : Nat := t - t % nsPerSecond

/-- The guard `s.ExpiresOn != nil && s.ExpiresOn.After(time.Now())`. -/
def expiresAfter (e : Option Nat) (now : Nat) : Bool :=
  match e with
  | some t => now < t
  | none => false

/-- `RefreshSessionIfNeeded` from the source.  The `ctx` parameter is the
caller's context; like the Go code, the body never consults it.  `now` is
the value of `time.Now()` during the call.  The result is
((refreshed-bool, error-or-nil), session after the call, network trace). -/
def RefreshSessionIfNeeded (env : Env) (ctx : Bool) (now : Nat)
    (p : CriteoProvider) (s : Option SessionState) :
    (Bool × Option CriteoError) × Option SessionState × List Request :=
  match s with
  | none => ((false, none), none, [])
  | some sess =>
    if expiresAfter sess.ExpiresOn now || sess.RefreshToken == "" then
      ((false, none), some sess, [])
    else
      match ValidateGroup env p sess with
      | (false, reqs) =>
        ((false, some (.groupMembershipLost sess.Email)), some sess, reqs)
      | (true, reqs) =>
        let expires := truncateToSecond (now + nsPerSecond)
        ((false, none), some { sess with ExpiresOn := some expires }, reqs)

/-- The directory-entry request `getExtendedProfile` builds for a given
provider and user key. -/
def dirEntryRequest (p : CriteoProvider) (dn : String) : Request :=
  { method := "GET",
    url := { p.IdentityURL with path := p.IdentityURL.path ++ dn },
    header := emptyHeader, ctx := none }

/-- The group-membership request `getExtendedProfile` builds for a given
provider and user key. -/
def dirGroupsRequest (p : CriteoProvider) (dn : String) : Request :=
  { method := "GET",
    url := { p.IdentityURL with path := p.IdentityURL.path ++ dn ++ "/groups" },
    header := emptyHeader, ctx := none }

/-! ### Concrete fixtures used by witnesses and counterexamples -/

/-- A provider as `Configure "sso.example" "identity.example" ["ops"]`
leaves it. -/
def pFix : CriteoProvider :=
  { ProfileURL :=
      { scheme := "https", host := "sso.example",
        path := "/auth/oauth2/tokeninfo", rawQuery := "realm=criteo" },
    IdentityURL :=
      { scheme := "http", host := "identity.example",
        path := "/user/", rawQuery := "" },
    groups := ["ops"] }

/-- An environment in which every request fails at the transport level. -/
def envFail : Env := fun _ => WireResp.transportFailure

/-- An environment serving a directory entry and the membership list
`["eng", "ops"]` for user `cn=alice`, and a token-introspection body for
everything else. -/
def envOk : Env := fun req =>
  if req.url.path = "/user/cn=alice" then
    WireResp.body (Wire.profile { Cn := "alice", Dn := "cn=alice" })
  else if req.url.path = "/user/cn=alice/groups" then
    WireResp.body (Wire.groupList [{ Name := "eng" }, { Name := "ops" }])
  else
    WireResp.body (Wire.token { Email := "alice@example.com", User := "cn=alice" })

/-- An environment whose introspection body carries an empty email and a
non-empty dn. -/
def envNoMail : Env := fun _ =>
  WireResp.body (Wire.token { Email := "", User := "cn=bob" })

/-- A session holding only tokens, with identity not yet resolved. -/
def sFresh : SessionState :=
  { AccessToken := "tok", RefreshToken := "", Email := "", User := "",
    ExpiresOn := none }

/-- A fully resolved session for `cn=alice` with an expired timestamp and a
refresh token. -/
def sAlice : SessionState :=
  { AccessToken := "tok", RefreshToken := "rtok", Email := "alice@example.com",
    User := "cn=alice", ExpiresOn := some 5 }

/-- Like `envOk` but the membership list is served in the opposite order. -/
def envOkPerm : Env := fun req =>
  if req.url.path = "/user/cn=alice" then
    WireResp.body (Wire.profile { Cn := "alice", Dn := "cn=alice" })
  else if req.url.path = "/user/cn=alice/groups" then
    WireResp.body (Wire.groupList [{ Name := "ops" }, { Name := "eng" }])
  else
    WireResp.body (Wire.token { Email := "alice@example.com", User := "cn=alice" })

/-- `sAlice` with an expiry still in the future relative to `now = 10`. -/
def sFuture : SessionState := { sAlice with ExpiresOn := some 100 }

/-! ### Helper lemmas -/

/-- Two booleans agreeing as propositions are equal. -/
theorem bool_eq_of_iff {a b : Bool} (h : (a = true) ↔ (b = true)) : a = b := by
  cases a <;> cases b <;> simp_all

/-- The double loop of `userInGroup` succeeds exactly when some membership
name equals some allow-list entry. -/
theorem any_match_iff (L : List groupInfo) (gs : List String) :
    (L.any (fun ug => gs.any (fun g => ug.Name == g)) = true) ↔
    ∃ ug ∈ L, ug.Name ∈ gs := by
  simp [List.any_eq_true]

/-- Shape of the network trace of `getExtendedProfile`: the entry request is
always issued; the groups request is issued exactly when the entry
round-trip succeeds. -/
theorem getExtendedProfile_trace (env : Env) (p : CriteoProvider) (dn : String) :
    (getExtendedProfile env p dn).2 =
      match RequestJSON env (dirEntryRequest p dn) decodeProfileResponse with
      | .error _ => [dirEntryRequest p dn]
      | .ok _ => [dirEntryRequest p dn, dirGroupsRequest p dn] := by
  cases h : RequestJSON env (dirEntryRequest p dn) decodeProfileResponse with
  | error e =>
    simp only [getExtendedProfile, requestJSON, dirEntryRequest] at *
    rw [h]
  | ok pr =>
    simp only [getExtendedProfile, requestJSON, dirEntryRequest, dirGroupsRequest] at *
    rw [h]
    cases RequestJSON env
        { method := "GET",
          url := { p.IdentityURL with path := p.IdentityURL.path ++ dn ++ "/groups" },
          header := emptyHeader, ctx := none } decodeGroupList <;> rfl

/-- `userInGroup` hands exactly the requests of `getExtendedProfile` to the
HTTP layer. -/
theorem userInGroup_trace (env : Env) (p : CriteoProvider) (groups : List String)
    (s : SessionState) :
    (userInGroup env p groups s).2 = (getExtendedProfile env p s.User).2 := by
  unfold userInGroup
  cases h : getExtendedProfile env p s.User with
  | mk res reqs => cases res <;> rfl

/-! ### Claim theorems -/

/-- C1: if either directory round-trip performed by the group authorization
check errors (i.e. `getExtendedProfile` returns an error), `userInGroup`
returns `false`; its `Bool` result type has no error channel, so no error
is propagated to the caller. -/
theorem userInGroup_fail_closed (env : Env) (p : CriteoProvider)
    (groups : List String) (s : SessionState) (e : CriteoError)
    (reqs : List Request)
    (h : getExtendedProfile env p s.User = (.error e, reqs)) :
    userInGroup env p groups s = (false, reqs) := by
  simp [userInGroup, h]

/-- Witness for C1: with every request failing at the transport level, the
group check of `sAlice` denies access. -/
theorem userInGroup_fail_closed_witness :
    userInGroup envFail pFix ["ops"] sAlice =
      (false, [dirEntryRequest pFix "cn=alice"]) :=
  userInGroup_fail_closed envFail pFix ["ops"] sAlice .remoteUnavailable
    [dirEntryRequest pFix "cn=alice"] (by rfl)

/-- C2: on a successful fetch, the group check authorizes exactly when some
membership name equals (case-sensitively) some allow-list entry; the result
is invariant under permuting either the fetched membership list or the
allow-list. -/
theorem userInGroup_exact_match (env env₂ : Env) (p : CriteoProvider)
    (groups groups₂ : List String) (s : SessionState)
    (prof prof₂ : criteoProfile) (reqs reqs₂ : List Request)
    (h : getExtendedProfile env p s.User = (.ok prof, reqs))
    (h₂ : getExtendedProfile env₂ p s.User = (.ok prof₂, reqs₂))
    (hpg : prof₂.groups.Groups.Perm prof.groups.Groups)
    (hpa : groups₂.Perm groups) :
    ((userInGroup env p groups s).1 = true ↔
      ∃ ug ∈ prof.groups.Groups, ug.Name ∈ groups) ∧
    (userInGroup env₂ p groups₂ s).1 = (userInGroup env p groups s).1 := by
  have key : ∀ (env' : Env) (gs : List String) (pr : criteoProfile)
      (rs : List Request), getExtendedProfile env' p s.User = (.ok pr, rs) →
      ((userInGroup env' p gs s).1 = true ↔ ∃ ug ∈ pr.groups.Groups, ug.Name ∈ gs) := by
    intro env' gs pr rs h'
    simp only [userInGroup, h']
    exact any_match_iff pr.groups.Groups gs
  refine ⟨key env groups prof reqs h, bool_eq_of_iff ?_⟩
  rw [key env groups prof reqs h, key env₂ groups₂ prof₂ reqs₂ h₂]
  constructor
  · rintro ⟨ug, hug, hmem⟩
    exact ⟨ug, hpg.mem_iff.mp hug, hpa.mem_iff.mp hmem⟩
  · rintro ⟨ug, hug, hmem⟩
    exact ⟨ug, hpg.mem_iff.mpr hug, hpa.mem_iff.mpr hmem⟩

/-- Witness for C2: membership `["eng","ops"]` against allow-list `["ops"]`
authorizes, and serving the memberships in the opposite order gives the
same result. -/
theorem userInGroup_exact_match_witness :
    ((userInGroup envOk pFix ["ops"] sAlice).1 = true ↔
      ∃ ug ∈ [({ Name := "eng" } : groupInfo), { Name := "ops" }],
        ug.Name ∈ ["ops"]) ∧
    (userInGroup envOkPerm pFix ["ops"] sAlice).1 =
      (userInGroup envOk pFix ["ops"] sAlice).1 :=
  userInGroup_exact_match envOk envOkPerm pFix ["ops"] ["ops"] sAlice
    { profile := { Cn := "alice", Dn := "cn=alice" },
      groups := { Groups := [{ Name := "eng" }, { Name := "ops" }] } }
    { profile := { Cn := "alice", Dn := "cn=alice" },
      groups := { Groups := [{ Name := "ops" }, { Name := "eng" }] } }
    [dirEntryRequest pFix "cn=alice", dirGroupsRequest pFix "cn=alice"]
    [dirEntryRequest pFix "cn=alice", dirGroupsRequest pFix "cn=alice"]
    (by rfl) (by rfl) (by decide) (by decide)

/-- C3: on a session with past-or-unset expiry and a non-empty refresh
token whose group re-check denies, `RefreshSessionIfNeeded` returns
`(false, groupMembershipLost)` and hands back the session unchanged (in
particular its expiry is untouched). -/
theorem refreshSessionIfNeeded_membership_lost (env : Env) (ctx : Bool)
    (now : Nat) (p : CriteoProvider) (sess : SessionState)
    (hexp : expiresAfter sess.ExpiresOn now = false)
    (hrt : sess.RefreshToken ≠ "")
    (hval : (ValidateGroup env p sess).1 = false) :
    RefreshSessionIfNeeded env ctx now p (some sess) =
      ((false, some (.groupMembershipLost sess.Email)), some sess,
       (ValidateGroup env p sess).2) := by
  rcases hVG : ValidateGroup env p sess with ⟨b, reqs⟩
  rw [hVG] at hval
  simp only at hval
  subst hval
  simp [RefreshSessionIfNeeded, hexp, hrt, hVG]

/-- Witness for C3: with the directory down, refreshing the expired session
of `cn=alice` fails with `groupMembershipLost` and leaves the session
intact. -/
theorem refreshSessionIfNeeded_membership_lost_witness :
    RefreshSessionIfNeeded envFail false 10 pFix (some sAlice) =
      ((false, some (.groupMembershipLost "alice@example.com")), some sAlice,
       [dirEntryRequest pFix "cn=alice"]) :=
  refreshSessionIfNeeded_membership_lost envFail false 10 pFix sAlice
    (by decide) (by decide) (by decide)

/-- C4: on a session with past-or-unset expiry and a non-empty refresh
token whose user is still authorized, `RefreshSessionIfNeeded` sets the
expiry to `time.Now().Add(time.Second).Truncate(time.Second)`, changes no
other session field (in particular both tokens are untouched — no token
exchange), performs only the group check's directory requests, and returns
`(false, nil)`. -/
theorem refreshSessionIfNeeded_heartbeat (env : Env) (ctx : Bool) (now : Nat)
    (p : CriteoProvider) (sess : SessionState)
    (hexp : expiresAfter sess.ExpiresOn now = false)
    (hrt : sess.RefreshToken ≠ "")
    (hval : (ValidateGroup env p sess).1 = true) :
    RefreshSessionIfNeeded env ctx now p (some sess) =
      ((false, none),
       some { sess with ExpiresOn := some (truncateToSecond (now + nsPerSecond)) },
       (ValidateGroup env p sess).2) := by
  rcases hVG : ValidateGroup env p sess with ⟨b, reqs⟩
  rw [hVG] at hval
  simp only at hval
  subst hval
  simp [RefreshSessionIfNeeded, hexp, hrt, hVG]

/-- Witness for C4: the expired session of `cn=alice`, still in group
`ops`, gets its expiry advanced to second 1 (nanosecond 10⁹) while both
tokens stay as they were. -/
theorem refreshSessionIfNeeded_heartbeat_witness :
    RefreshSessionIfNeeded envOk false 10 pFix (some sAlice) =
      ((false, none),
       some { AccessToken := "tok", RefreshToken := "rtok",
              Email := "alice@example.com", User := "cn=alice",
              ExpiresOn := some 1000000000 },
       [dirEntryRequest pFix "cn=alice", dirGroupsRequest pFix "cn=alice"]) :=
  refreshSessionIfNeeded_heartbeat envOk false 10 pFix sAlice
    (by decide) (by decide) (by decide)

/-- C5: when the session is absent, or its refresh token is empty, or its
expiry is set and in the future, `RefreshSessionIfNeeded` returns
`(false, nil)`, hands the session back unchanged, and issues no request. -/
theorem refreshSessionIfNeeded_skip (env : Env) (ctx : Bool) (now : Nat)
    (p : CriteoProvider) (s : Option SessionState)
    (h : s = none ∨ ∃ sess, s = some sess ∧
          (expiresAfter sess.ExpiresOn now = true ∨ sess.RefreshToken = "")) :
    RefreshSessionIfNeeded env ctx now p s = ((false, none), s, []) := by
  rcases h with rfl | ⟨sess, rfl, h | h⟩
  · rfl
  · simp [RefreshSessionIfNeeded, h]
  · simp [RefreshSessionIfNeeded, h]

/-- Witness for C5: a session expiring at nanosecond 100 seen at `now = 10`
is left exactly as it is, with an empty network trace. -/
theorem refreshSessionIfNeeded_skip_witness :
    RefreshSessionIfNeeded envOk false 10 pFix (some sFuture) =
      ((false, none), some sFuture, []) :=
  refreshSessionIfNeeded_skip envOk false 10 pFix (some sFuture)
    (Or.inr ⟨sFuture, rfl, Or.inl (by decide)⟩)

/-- C6: on a session whose `User` and `Email` are both non-empty,
`GetProfile` succeeds immediately with no request and no session change,
and therefore a second call behaves identically — zero network calls on
the second call. -/
theorem getProfile_fast_path_idempotent (env : Env) (ctx : Bool)
    (p : CriteoProvider) (s : SessionState)
    (hu : s.User ≠ "") (he : s.Email ≠ "") :
    GetProfile env ctx p s = (none, s, []) ∧
    GetProfile env ctx p (GetProfile env ctx p s).2.1 = (none, s, []) := by
  have h1 : GetProfile env ctx p s = (none, s, []) := by
    simp [GetProfile, hu, he]
  refine ⟨h1, ?_⟩
  rw [h1]
  exact h1

/-- Witness for C6: both calls on the fully resolved session `sAlice`
return success with an empty trace. -/
theorem getProfile_fast_path_idempotent_witness :
    GetProfile envOk false pFix sAlice = (none, sAlice, []) ∧
    GetProfile envOk false pFix (GetProfile envOk false pFix sAlice).2.1 =
      (none, sAlice, []) :=
  getProfile_fast_path_idempotent envOk false pFix sAlice
    (by decide) (by decide)

/-- C7: on a session whose identity is not yet resolved and whose access
token is empty, `GetProfile` fails with `missingCredential` before any
request is built, leaving the session unchanged. -/
theorem getProfile_missing_token (env : Env) (ctx : Bool)
    (p : CriteoProvider) (s : SessionState)
    (h : s.User = "" ∨ s.Email = "") (ht : s.AccessToken = "") :
    GetProfile env ctx p s = (some .missingCredential, s, []) := by
  have hcond : ¬ (s.User ≠ "" ∧ s.Email ≠ "") := by tauto
  simp [GetProfile, hcond, requestJSONWithContext, ht]

/-- Witness for C7: a fresh session with its token blanked out fails with
`missingCredential` and an empty trace. -/
theorem getProfile_missing_token_witness :
    GetProfile envOk false pFix { sFresh with AccessToken := "" } =
      (some .missingCredential, { sFresh with AccessToken := "" }, []) :=
  getProfile_missing_token envOk false pFix { sFresh with AccessToken := "" }
    (Or.inl (by decide)) (by decide)

/-- C8 counterexample: the group authorization check does not always
perform two requests — when the first directory round-trip fails at the
transport level, exactly one request is handed to the HTTP layer, because
`getExtendedProfile` fails fast. -/
theorem userInGroup_single_request_on_failure :
    (userInGroup envFail pFix ["ops"] sAlice).2.length = 1 ∧
    ¬ (userInGroup envFail pFix ["ops"] sAlice).2.length = 2 := by
  decide

/-- C8 (amended): the group authorization check issues a GET to
`<directoryBase>/user/<dn>` and, exactly when that round-trip succeeds, a
second sequential GET to `<directoryBase>/user/<dn>/groups`; every issued
request is a GET without an Authorization header (unauthenticated). -/
theorem getExtendedProfile_requests (env : Env) (p : CriteoProvider)
    (dn : String) :
    ((getExtendedProfile env p dn).2 =
      match RequestJSON env (dirEntryRequest p dn) decodeProfileResponse with
      | .error _ => [dirEntryRequest p dn]
      | .ok _ => [dirEntryRequest p dn, dirGroupsRequest p dn]) ∧
    (∀ r ∈ (getExtendedProfile env p dn).2,
      r.method = "GET" ∧ r.header.authorization = none) := by
  refine ⟨getExtendedProfile_trace env p dn, ?_⟩
  rw [getExtendedProfile_trace env p dn]
  cases RequestJSON env (dirEntryRequest p dn) decodeProfileResponse <;>
    simp [dirEntryRequest, dirGroupsRequest, emptyHeader]

/-- Witness for C8 (amended): against the healthy environment `envOk`, the
check for `cn=alice` performs the two expected unauthenticated GETs. -/
theorem getExtendedProfile_requests_witness :
    ((getExtendedProfile envOk pFix "cn=alice").2 =
      match RequestJSON envOk (dirEntryRequest pFix "cn=alice")
          decodeProfileResponse with
      | .error _ => [dirEntryRequest pFix "cn=alice"]
      | .ok _ => [dirEntryRequest pFix "cn=alice",
                  dirGroupsRequest pFix "cn=alice"]) ∧
    (∀ r ∈ (getExtendedProfile envOk pFix "cn=alice").2,
      r.method = "GET" ∧ r.header.authorization = none) :=
  getExtendedProfile_requests envOk pFix "cn=alice"

/-- C9 counterexample: with the caller's context cancelled (`ctx = true`),
the refresh path still runs the group re-check to completion — both
directory round-trips are performed by requests carrying no context at
all, and the operation returns success instead of failing with
`cancelled`. -/
theorem refresh_ignores_cancelled_context :
    RefreshSessionIfNeeded envOk true 10 pFix (some sAlice) =
      ((false, none),
       some { AccessToken := "tok", RefreshToken := "rtok",
              Email := "alice@example.com", User := "cn=alice",
              ExpiresOn := some 1000000000 },
       [dirEntryRequest pFix "cn=alice", dirGroupsRequest pFix "cn=alice"]) ∧
    (∀ r ∈ (RefreshSessionIfNeeded envOk true 10 pFix (some sAlice)).2.2,
      r.ctx = none) := by
  decide

/-- C9 (amended): the introspection call of profile resolution is built
with the caller's context, so a cancelled context makes `GetProfile` fail
with `cancelled` after the single aborted request; the directory
round-trips of the group authorization check, by contrast, are built with
plain `http.NewRequest` and carry no context, so caller cancellation never
reaches them. -/
theorem cancellation_scope (env : Env) (p : CriteoProvider)
    (groups : List String) (s : SessionState)
    (hfast : ¬ (s.User ≠ "" ∧ s.Email ≠ "")) (ht : s.AccessToken ≠ "") :
    GetProfile env true p s =
      (some .cancelled, s,
       [{ method := "GET", url := p.ProfileURL,
          header := getCriteoHeader s.AccessToken, ctx := some true }]) ∧
    (∀ r ∈ (userInGroup env p groups s).2, r.ctx = none) := by
  constructor
  · simp [GetProfile, hfast, requestJSONWithContext, ht, RequestJSON]
  · rw [userInGroup_trace, getExtendedProfile_trace env p s.User]
    cases RequestJSON env (dirEntryRequest p s.User) decodeProfileResponse <;>
      simp [dirEntryRequest, dirGroupsRequest]

/-- Witness for C9 (amended): on the fresh session, a cancelled context
aborts the introspection call with `cancelled`, while the group check's
requests all carry no context. -/
theorem cancellation_scope_witness :
    GetProfile envOk true pFix sFresh =
      (some .cancelled, sFresh,
       [{ method := "GET", url := pFix.ProfileURL,
          header := getCriteoHeader sFresh.AccessToken, ctx := some true }]) ∧
    (∀ r ∈ (userInGroup envOk pFix ["ops"] sFresh).2, r.ctx = none) :=
  cancellation_scope envOk pFix ["ops"] sFresh (by decide) (by decide)

/-- C10: when introspection succeeds but returns an empty email,
`GetProfile` fails with `profileIncomplete` only after having overwritten
the session's `Email` with the empty response email and its `User` with the
response's dn — the failure is not atomic with respect to the session. -/
theorem getProfile_incomplete_mutation (env : Env) (ctx : Bool)
    (p : CriteoProvider) (s : SessionState) (info : tokenInfo)
    (reqs : List Request)
    (hfast : ¬ (s.User ≠ "" ∧ s.Email ≠ ""))
    (hcall : requestJSONWithContext env ctx (some s) p.ProfileURL
        decodeTokenInfo = (.ok info, reqs))
    (hmail : info.Email = "") :
    GetProfile env ctx p s =
      (some .profileIncomplete,
       { s with Email := "", User := info.User }, reqs) := by
  simp [GetProfile, hfast, hcall, hmail]

/-- Witness for C10: an introspection body with empty `mail` and
`dn = "cn=bob"` makes `GetProfile` fail with `profileIncomplete` while the
session's `User` has already been overwritten with `"cn=bob"`. -/
theorem getProfile_incomplete_mutation_witness :
    GetProfile envNoMail false pFix sFresh =
      (some .profileIncomplete,
       { AccessToken := "tok", RefreshToken := "", Email := "",
         User := "cn=bob", ExpiresOn := none },
       [{ method := "GET", url := pFix.ProfileURL,
          header := getCriteoHeader "tok", ctx := some false }]) :=
  getProfile_incomplete_mutation envNoMail false pFix sFresh
    { Email := "", User := "cn=bob" }
    [{ method := "GET", url := pFix.ProfileURL,
       header := getCriteoHeader "tok", ctx := some false }]
    (by decide) (by rfl) (by rfl)

end Criteo
